import Mathlib

set_option maxRecDepth 100000

/-!
Verification of the natural-language-to-SQL pipeline.

The development shallowly embeds the two Python source files:

* `generatequery.py`: keyword-based intent classification
  (`use_vector_search`), query synthesis (`generate_sql_query`), the query
  executor (`execute_sql_query`) and the Streamlit search-button handler
  (`search_handler` / `run_search`).
* `database.py`: the offline ingestion loop (`ingestion_run`).

Modelling conventions.  Python strings are Lean `String`s and the Python
string operations (`in`, `replace`, `strip`, `lower`, `re.sub` over the two
code-fence alternatives) are re-implemented over `List Char` so that every
definition is executable and kernel-reducible.  Embedding-vector components
are modelled as `Int` (no claim here depends on floating-point semantics,
only on the number of components and their textual rendering).  The two
external collaborators (embedding model and NL-to-SQL model) and the
PostgreSQL store are black boxes: a collaborator that raises or returns a
missing field is `none`, a store call that raises is `Except.error` with the
cause text.
-/

/-! ### Character-list string primitives -/

/-- Python `str.strip` on the left: drop leading whitespace. -/
def trimChars (s : List Char) : List Char :=
  ((s.dropWhile Char.isWhitespace).reverse.dropWhile Char.isWhitespace).reverse

/-- Python `str.strip`: remove leading and trailing whitespace. -/
def strim (s : String) : String := ⟨trimChars s.data⟩

/-- Python `str.lower` (ASCII case folding suffices for the texts involved). -/
def slower (s : String) : String := ⟨s.data.map Char.toLower⟩

/-- Occurrence test used to model Python `pat in s`. -/
def infixCheck (pat : List Char) : List Char → Bool
  | [] => pat.isEmpty
  | c :: cs => pat.isPrefixOf (c :: cs) || infixCheck pat cs

/-- Python `pat in s` (case-sensitive substring containment). -/
def containsSub (s pat : String) : Bool := infixCheck pat.data s.data

/-- `true` when the text `u` already disagrees with `pat` at some position
covered by both, so no continuation of `u` can start with `pat`. -/
def mismatchWithin (pat u : List Char) : Bool :=
  (u.zip pat).any fun p => p.1 != p.2

/-- `true` when no occurrence of `pat` can start at any position of `a`,
whatever text is appended after `a`. -/
def noOccStartsIn (pat : List Char) : List Char → Bool
  | [] => true
  | c :: cs => mismatchWithin pat (c :: cs) && noOccStartsIn pat cs

/-- Fuel-driven core of Python `str.replace`: scan left to right, replace
every (non-overlapping) occurrence of `pat` by `rep`; the replacement text
is not rescanned.  The fuel is an upper bound on the scanned length. -/
def replFuel (pat rep : List Char) : Nat → List Char → List Char
  | _, [] => []
  | 0, s => s
  | fuel + 1, c :: cs =>
    if pat.isPrefixOf (c :: cs) then
      rep ++ replFuel pat rep fuel (List.drop (pat.length - 1) cs)
    else
      c :: replFuel pat rep fuel cs

/-- Python `str.replace` over character lists (the patterns used by the
source, `"%s"` and `"LIMIT 5"`, are never empty; an empty pattern is
returned unchanged, which no claim exercises). -/
def repl (pat rep s : List Char) : List Char :=
  if pat.isEmpty then s else replFuel pat rep s.length s

/-- Python `query.replace(pat, rep)`. -/
def sreplace (s pat rep : String) : String := ⟨repl pat.data rep.data s.data⟩

/-- Core of `re.sub(r"```sql|```", "", s)`: at each position the alternative
`"```sql"` is tried before `"```"`, matches are deleted, and scanning
resumes after the match. -/
def fenceAux : Nat → List Char → List Char
  | _, [] => []
  | 0, s => s
  | fuel + 1, c :: cs =>
    if ("```sql".data).isPrefixOf (c :: cs) then fenceAux fuel (List.drop 5 cs)
    else if ("```".data).isPrefixOf (c :: cs) then fenceAux fuel (List.drop 2 cs)
    else c :: fenceAux fuel cs

/-- Line 128 of `generatequery.py`:
`re.sub(r"```sql|```", "", sql_query).strip()`. -/
def strip_fences (s : String) : String := strim ⟨fenceAux s.data.length s.data⟩

/-- Number of comma characters in a string (used to count the components of
a rendered vector literal). -/
def numCommas (s : String) : Nat := s.data.count ','

/-! ### `generatequery.py`: classification and synthesis -/

/-- Line 51: the fixed similarity-indicating keyword set. -/
def similarity_keywords : List String :=
  ["similar", "like", "related", "matching", "relevant"]

/-- Line 52: `any(word in user_input.lower() for word in similarity_keywords)`. -/
def use_vector_search (user_input : String) : Bool :=
  similarity_keywords.any fun word => containsSub (slower user_input) word

/-- The two query intents of the data model. -/
inductive QueryIntent where
  | StructuredQuery
  | SimilarityQuery
  deriving DecidableEq

/-- The intent decision of `generate_sql_query`, under the spec's name
`classify`: any keyword match means `SimilarityQuery`. -/
def classify (text : String) : QueryIntent :=
  if use_vector_search text then QueryIntent.SimilarityQuery
  else QueryIntent.StructuredQuery

/-- Lines 17-31: the fixed schema description injected into the prompt
(opaque text; never parsed by the program). -/
def schema : String :=
  "The database vector_db consists of four tables: departments, \n" ++
  "employees, orders, and products. The departments table has (id SERIAL PRIMARY KEY, name VARCHAR(100) NOT NULL). \n" ++
  "The employees table has (id SERIAL PRIMARY KEY, name VARCHAR(100) NOT NULL, department_id INT REFERENCES \n" ++
  "departments(id), email VARCHAR(255) UNIQUE NOT NULL, salary DECIMAL(10,2) NOT NULL). \n" ++
  "The orders table has (id SERIAL PRIMARY KEY, customer_name VARCHAR(100) NOT NULL, employee_id INT REFERENCES \n" ++
  "employees(id), order_total DECIMAL(10,2) NOT NULL, order_date DATE NOT NULL, embedding vector(768) \n" ++
  "for vector search). The products table has (id SERIAL PRIMARY KEY, name VARCHAR(100) NOT NULL, price DECIMAL(10,2) \n" ++
  "NOT NULL, embedding vector(768) for vector search). \n\n" ++
  "Relationships: employees.department_id -> departments.id (each employee belongs to a department), \n" ++
  "orders.employee_id -> employees.id (each order is handled by an employee). \n\n" ++
  "If the query involves searching for similar products or orders, generate an embedding for the query and use \n" ++
  "vector similarity search: embedding <=> QUERY_VECTOR. Combine it with SQL filters if necessary.\n"

/-- Lines 66-77: the prompt handed to the NL-to-SQL collaborator. -/
def structured_prompt (user_input : String) : String :=
  "\n            Convert this natural language query into a **PostgreSQL SQL query** using the schema provided.\n" ++
  "            Your response should **ONLY** contain the SQL query. if that is vector search, please use this syntax  \n" ++
  "        SELECT content, 1 - (embedding <=> %s) AS similarity\n" ++
  "        FROM documents\n" ++
  "        ORDER BY similarity DESC\n" ++
  "        LIMIT %s\n    \n\n" ++
  "            User query: " ++ user_input ++ "\n" ++
  "            Schema: " ++ schema ++ "\n            "

/-- Line 61: the canned similarity template. -/
def similarity_template : String :=
  "SELECT * FROM products ORDER BY embedding <=> %s LIMIT 5;"

/-- The constant head of the similarity template, up to the `%s`
placeholder (used to state what the executed SQL looks like). -/
def similarity_sql_head : String :=
  "SELECT * FROM products ORDER BY embedding <=> "

/-- The two black-box collaborators.  `embed` is `get_text_embedding`
(lines 36-46): its internal try/except makes it return `None` both when the
call raises and when the response lacks an `embedding` field, so its result
is an `Option`.  `llm` is `model.generate_content` followed by `.text`
(line 79): `none` models a raised exception, caught at line 83. -/
structure Collaborators where
  embed : String → Option (List Int)
  llm : String → Option String

/-- Lines 48-85, `generate_sql_query`: returns the SQL text and the
optional embedding, or `(none, none)` on any failure.  On the structured
path the collaborator text is stripped (line 80, `response.text.strip()`). -/
def generate_sql_query (c : Collaborators) (user_input : String) :
    Option String × Option (List Int) :=
  if use_vector_search user_input then
    match c.embed user_input with
    | none => (none, none)
    | some query_embedding => (some similarity_template, some query_embedding)
  else
    match c.llm (structured_prompt user_input) with
    | none => (none, none)
    | some t => (some (strim t), none)

/-! ### `generatequery.py`: the executor -/

/-- A result row: an ordered tuple of column values. -/
abbrev Row := List String

/-- The black-box PostgreSQL store.  `connect` is `psycopg2.connect`
(line 93): `Except.error` models a raised connection error.  `run` is
`cur.execute` followed by `cur.fetchall` for one SQL text: `Except.error`
models any store-reported error (syntax error, timeout, ...). -/
structure Store where
  connect : Except String Unit
  run : String → Except String (List Row)

/-- Observable outcome of one `execute_sql_query` call: the returned value
(`none` is Python `None`), the SQL texts passed to `cur.execute`, and the
number of connections opened and closed. -/
structure ExecOutcome where
  result : Option (List Row)
  calls : List String
  conns_opened : Nat
  conns_closed : Nat
  deriving DecidableEq

/-- Lines 98-99: `np.array(query_embedding, dtype=np.float32).tolist()`
rendered by the f-string `f"ARRAY{query_embedding}::vector"`.  The Python
list repr separates elements by `", "`. -/
def pyListChars : List (List Char) → List Char
  | [] => []
  | [x] => x
  | x :: xs => x ++ ',' :: ' ' :: pyListChars xs

/-- Python repr of the embedding list (components rendered via
`toString`; the float32 round-trip is modelled as the identity). -/
def pyListRepr (v : List Int) : String :=
  ⟨'[' :: pyListChars (v.map fun x => (toString x).data) ++ [']']⟩

/-- Line 99: the store-native vector literal. -/
def vector_literal (v : List Int) : String :=
  "ARRAY" ++ pyListRepr v ++ "::vector"

/-- Lines 96-108: the SQL text actually passed to `cur.execute`.  Python
`if query_embedding:` is truthiness, so both `None` and the empty list
leave the query verbatim; otherwise `%s` is replaced by the vector literal
and `LIMIT 5` by `LIMIT top_k`. -/
def executed_sql (query : String) (query_embedding : Option (List Int))
    (top_k : Nat) : String :=
  match query_embedding with
  | none => query
  | some v =>
    if v.isEmpty then query
    else
      sreplace (sreplace query "%s" (vector_literal v))
        "LIMIT 5" ("LIMIT " ++ toString top_k)

/-- Lines 90-117, `execute_sql_query(query, query_embedding=None, top_k=1)`:
every exception is caught and turned into `None`; the `finally` block closes
the connection whenever one was opened (a failed `connect` leaves
`conn = None`, so nothing is closed there). -/
def execute_sql_query (store : Store) (query : String)
    (query_embedding : Option (List Int)) (top_k : Nat) : ExecOutcome :=
  match store.connect with
  | Except.error _ =>
    { result := none, calls := [], conns_opened := 0, conns_closed := 0 }
  | Except.ok _ =>
    match store.run (executed_sql query query_embedding top_k) with
    | Except.ok rows =>
      { result := some rows
        calls := [executed_sql query query_embedding top_k]
        conns_opened := 1, conns_closed := 1 }
    | Except.error _ =>
      { result := none
        calls := [executed_sql query query_embedding top_k]
        conns_opened := 1, conns_closed := 1 }

/-! ### `generatequery.py`: the Streamlit handler -/

/-- The four user-visible outcomes of one search (lines 126-140). -/
inductive UiOutcome where
  | shown (rows : List Row)
  | noResultsOrFailed
  | invalidQuery
  | generationFailed
  deriving DecidableEq

/-- Observable outcome of one press of the search button. -/
structure SearchOutcome where
  displayed_sql : Option String
  ui : UiOutcome
  calls : List String
  conns_opened : Nat
  conns_closed : Nat
  deriving DecidableEq

/-- Lines 131-138: the `if "SELECT" in sql_query:` block.  `if results:` is
truthiness, so both `None` and an empty row list render the same
`"No results found or query execution failed."` message.  The handler calls
`execute_sql_query(sql_query, query_embedding)`, leaving `top_k` at its
default `1`. -/
def run_search (store : Store) (sql_query : String)
    (query_embedding : Option (List Int)) : SearchOutcome :=
  if containsSub sql_query "SELECT" then
    { displayed_sql := some sql_query
      ui :=
        match (execute_sql_query store sql_query query_embedding 1).result with
        | some rows =>
          if rows.isEmpty then UiOutcome.noResultsOrFailed
          else UiOutcome.shown rows
        | none => UiOutcome.noResultsOrFailed
      calls := (execute_sql_query store sql_query query_embedding 1).calls
      conns_opened := (execute_sql_query store sql_query query_embedding 1).conns_opened
      conns_closed := (execute_sql_query store sql_query query_embedding 1).conns_closed }
  else
    { displayed_sql := some sql_query, ui := UiOutcome.invalidQuery
      calls := [], conns_opened := 0, conns_closed := 0 }

/-- Lines 122-140: the search-button handler.  `if sql_query:` is string
truthiness (`None` and `""` both fail it); otherwise the text has its
code fences stripped (line 128) before the gate and execution. -/
def search_handler (c : Collaborators) (store : Store) (user_input : String) :
    SearchOutcome :=
  match generate_sql_query c user_input with
  | (none, _) =>
    { displayed_sql := none, ui := UiOutcome.generationFailed
      calls := [], conns_opened := 0, conns_closed := 0 }
  | (some s0, query_embedding) =>
    if s0.data.isEmpty then
      { displayed_sql := none, ui := UiOutcome.generationFailed
        calls := [], conns_opened := 0, conns_closed := 0 }
    else run_search store (strip_fences s0) query_embedding

/-! ### `database.py`: the offline ingestion job -/

/-- One row of the `products` table. -/
structure Product where
  id : Nat
  name : String
  embedding : Option (List Int)
  deriving DecidableEq

/-- Line 14: `UPDATE products SET embedding = %s WHERE id = %s;`. -/
def update_embedding (table : List Product) (i : Nat) (e : List Int) :
    List Product :=
  table.map fun r => if r.id = i then { r with embedding := some e } else r

/-- One iteration of the loop at lines 12-14: issue the `UPDATE` for the
fetched `(id, name)` pair and record the write `(id, embedding)`. -/
def ingest_step (embed : String → List Int)
    (acc : List Product × List (Nat × List Int)) (p : Nat × String) :
    List Product × List (Nat × List Int) :=
  (update_embedding acc.1 p.1 (embed p.2), acc.2 ++ [(p.1, embed p.2)])

/-- Lines 9-14: `SELECT id, name FROM products;` then the update loop.
Returns the final table and the trace of embedding writes, in order. -/
def ingestion_run (embed : String → List Int) (table : List Product) :
    List Product × List (Nat × List Int) :=
  (table.map fun r => (r.id, r.name)).foldl (ingest_step embed) (table, [])

/-! ### Spec-modelled safety gate (for the refinement comparison of C1) -/

/-- Modelled from the spec: the read-only statement keywords of the
"begin with a read-only statement keyword (case-insensitive)" gate that
section 4.3 requires (the code itself has no such list). -/
def spec_read_only_keywords : List String :=
  ["SELECT", "WITH", "SHOW", "EXPLAIN", "TABLE", "VALUES"]

/-- Modelled from the spec: "the resulting template must begin with a
read-only statement keyword (case-insensitive)".  Stated over the fence
stripped, trimmed text, as the spec's gate applies to the final template. -/
def spec_begins_with_read_only (s : String) : Bool :=
  spec_read_only_keywords.any fun k =>
    (slower k).data.isPrefixOf (slower s).data

/-! ### Helper lemmas: strings and replacement -/

theorem strEq {a b : String} (h : a.data = b.data) : a = b := by
  cases a; cases b; exact congrArg String.mk h

theorem sdata_append (a b : String) : (a ++ b).data = a.data ++ b.data := rfl

theorem mismatch_not_prefix {pat u : List Char}
    (h : mismatchWithin pat u = true) (t : List Char) :
    pat.isPrefixOf (u ++ t) = false := by
  induction pat generalizing u with
  | nil => simp [mismatchWithin] at h
  | cons p ps ih =>
    cases u with
    | nil => simp [mismatchWithin] at h
    | cons c cs =>
      simp only [mismatchWithin, List.zip_cons_cons, List.any_cons,
        Bool.or_eq_true] at h
      rcases h with h | h
      · have hcp : ¬(c = p) := by simpa using h
        simp [List.isPrefixOf, beq_eq_false_iff_ne, Ne.symm hcp]
      · have : mismatchWithin ps cs = true := h
        simp [List.isPrefixOf, ih this]

theorem isPrefixOf_append_self (l t : List Char) :
    l.isPrefixOf (l ++ t) = true := by
  induction l with
  | nil => simp [List.isPrefixOf]
  | cons a as ih => simp [List.isPrefixOf, ih]

theorem replFuel_nil (pat rep : List Char) (f : Nat) :
    replFuel pat rep f [] = [] := by
  cases f <;> rfl

theorem replFuel_irrel (pat rep : List Char) :
    ∀ f g s, s.length ≤ f → s.length ≤ g →
      replFuel pat rep f s = replFuel pat rep g s := by
  intro f
  induction f with
  | zero =>
    intro g s hf _
    have hs : s = [] := by cases s <;> simp_all
    subst hs
    simp [replFuel_nil]
  | succ f ih =>
    intro g s hf hg
    cases s with
    | nil => simp [replFuel_nil]
    | cons c cs =>
      cases g with
      | zero => simp at hg
      | succ g =>
        simp only [replFuel]
        by_cases hp : pat.isPrefixOf (c :: cs) = true
        · rw [if_pos hp, if_pos hp]
          congr 1
          apply ih
          · have := List.length_drop (pat.length - 1) cs
            simp only [List.length_cons] at hf
            omega
          · have := List.length_drop (pat.length - 1) cs
            simp only [List.length_cons] at hg
            omega
        · rw [if_neg hp, if_neg hp]
          congr 1
          apply ih
          · simp only [List.length_cons] at hf; omega
          · simp only [List.length_cons] at hg; omega

theorem replFuel_split (pat rep : List Char) (_hne : pat ≠ []) :
    ∀ (a t : List Char) (f : Nat), noOccStartsIn pat a = true →
      (a ++ t).length ≤ f →
      replFuel pat rep f (a ++ t) = a ++ replFuel pat rep t.length t := by
  intro a
  induction a with
  | nil =>
    intro t f _ hf
    simp only [List.nil_append]
    exact replFuel_irrel pat rep f t.length t (by simpa using hf) le_rfl
  | cons c cs ih =>
    intro t f hocc hf
    simp only [noOccStartsIn, Bool.and_eq_true] at hocc
    have hnp : pat.isPrefixOf ((c :: cs) ++ t) = false :=
      mismatch_not_prefix hocc.1 t
    simp only [List.cons_append] at hnp
    cases f with
    | zero => simp at hf
    | succ f =>
      simp only [List.cons_append, replFuel, List.append_eq]
      rw [if_neg (by simp [hnp])]
      have hrec := ih t f hocc.2 (by
        simp only [List.length_append, List.length_cons] at hf ⊢
        omega)
      rw [hrec]

theorem replFuel_hit (pat rep : List Char) (hne : pat ≠ []) (t : List Char)
    (f : Nat) (hf : (pat ++ t).length ≤ f) :
    replFuel pat rep f (pat ++ t) = rep ++ replFuel pat rep t.length t := by
  cases pat with
  | nil => exact absurd rfl hne
  | cons p ps =>
    cases f with
    | zero => simp at hf
    | succ f =>
      have hp : (p :: ps).isPrefixOf ((p :: ps) ++ t) = true :=
        isPrefixOf_append_self _ _
      simp only [List.cons_append] at hp
      simp only [List.cons_append, replFuel, List.append_eq]
      rw [if_pos hp]
      have hlen : (p :: ps).length - 1 = ps.length := by simp
      rw [hlen, List.drop_left]
      congr 1
      apply replFuel_irrel
      · simp only [List.length_append, List.length_cons] at hf
        omega
      · exact le_rfl

theorem repl_nil (pat rep : List Char) : repl pat rep [] = [] := by
  unfold repl
  split <;> simp [replFuel_nil]

theorem repl_append_of_noOcc (pat rep a t : List Char) (hne : pat ≠ [])
    (h : noOccStartsIn pat a = true) :
    repl pat rep (a ++ t) = a ++ repl pat rep t := by
  have hpe : pat.isEmpty = false := by cases pat <;> simp_all
  unfold repl
  simp only [hpe, Bool.false_eq_true, if_false]
  exact replFuel_split pat rep hne a t _ h le_rfl

theorem repl_hit (pat rep t : List Char) (hne : pat ≠ []) :
    repl pat rep (pat ++ t) = rep ++ repl pat rep t := by
  have hpe : pat.isEmpty = false := by cases pat <;> simp_all
  unfold repl
  simp only [hpe, Bool.false_eq_true, if_false]
  exact replFuel_hit pat rep hne t _ le_rfl

theorem repl_self_of_noOcc (pat rep s : List Char) (hne : pat ≠ [])
    (h : noOccStartsIn pat s = true) : repl pat rep s = s := by
  have := repl_append_of_noOcc pat rep s [] hne h
  simpa [repl_nil] using this

theorem mk_data (l : List Char) : (String.mk l).data = l := rfl

/-- The SQL text the executor sends for the similarity template: the head up
to the placeholder, the vector literal, then the rewritten row limit. -/
theorem executed_similarity (v : List Int) (k : Nat) (hv : v ≠ [])
    (h5 : noOccStartsIn ("LIMIT 5").data (vector_literal v).data = true) :
    executed_sql similarity_template (some v) k
      = similarity_sql_head ++ vector_literal v ++ " LIMIT " ++ toString k ++ ";" := by
  have hvE : v.isEmpty = false := by cases v <;> simp_all
  have psd_ne : ("%s").data ≠ [] := by decide
  have l5_ne : ("LIMIT 5").data ≠ [] := by decide
  apply strEq
  simp only [executed_sql, hvE, Bool.false_eq_true, if_false]
  simp only [sreplace, mk_data]
  have htempl : similarity_template.data
      = similarity_sql_head.data
        ++ ("%s".data ++ ([' '] ++ (("LIMIT 5").data ++ (";").data))) := by decide
  have step1 : repl ("%s").data (vector_literal v).data similarity_template.data
      = similarity_sql_head.data
        ++ ((vector_literal v).data ++ ([' '] ++ (("LIMIT 5").data ++ (";").data))) := by
    rw [htempl]
    rw [repl_append_of_noOcc ("%s").data (vector_literal v).data
      similarity_sql_head.data
      (("%s").data ++ ([' '] ++ (("LIMIT 5").data ++ (";").data))) psd_ne (by decide)]
    rw [repl_hit ("%s").data (vector_literal v).data
      ([' '] ++ (("LIMIT 5").data ++ (";").data)) psd_ne]
    rw [repl_self_of_noOcc ("%s").data (vector_literal v).data
      ([' '] ++ (("LIMIT 5").data ++ (";").data)) psd_ne (by decide)]
  have step2 : repl ("LIMIT 5").data ("LIMIT " ++ toString k).data
      (similarity_sql_head.data
        ++ ((vector_literal v).data ++ ([' '] ++ (("LIMIT 5").data ++ (";").data))))
      = similarity_sql_head.data
        ++ ((vector_literal v).data
          ++ ([' '] ++ (("LIMIT " ++ toString k).data ++ (";").data))) := by
    rw [repl_append_of_noOcc ("LIMIT 5").data ("LIMIT " ++ toString k).data
      similarity_sql_head.data
      ((vector_literal v).data ++ ([' '] ++ (("LIMIT 5").data ++ (";").data)))
      l5_ne (by decide)]
    rw [repl_append_of_noOcc ("LIMIT 5").data ("LIMIT " ++ toString k).data
      (vector_literal v).data ([' '] ++ (("LIMIT 5").data ++ (";").data)) l5_ne h5]
    rw [repl_append_of_noOcc ("LIMIT 5").data ("LIMIT " ++ toString k).data
      [' '] (("LIMIT 5").data ++ (";").data) l5_ne (by decide)]
    rw [repl_hit ("LIMIT 5").data ("LIMIT " ++ toString k).data (";").data l5_ne]
    rw [repl_self_of_noOcc ("LIMIT 5").data ("LIMIT " ++ toString k).data
      (";").data l5_ne (by decide)]
  rw [step1, step2]
  have hsp : ∀ X : List Char,
      ([' '] : List Char) ++ (("LIMIT ").data ++ X) = (" LIMIT ").data ++ X := by
    intro X
    rfl
  simp only [sdata_append, List.append_assoc, hsp]

/-- Comma count of the Python list body: one comma between adjacent
components, none inside a component. -/
theorem count_pyListChars (es : List (List Char))
    (h : ∀ e ∈ es, e.count ',' = 0) (hne : es ≠ []) :
    (pyListChars es).count ',' = es.length - 1 := by
  induction es with
  | nil => exact absurd rfl hne
  | cons x xs ih =>
    cases xs with
    | nil => simp [pyListChars, h x (by simp)]
    | cons y ys =>
      have hx := h x (by simp)
      have hrest : ∀ e ∈ y :: ys, e.count ',' = 0 := fun e he => h e (by simp [he])
      have hih := ih hrest (by simp)
      simp only [pyListChars, List.count_append, List.count_cons, hx, hih]
      simp [List.length_cons]

/-- A vector literal rendered from `v` has exactly `v.length` components,
measured by its comma count, provided no component rendering contains a
comma. -/
theorem numCommas_vector_literal (v : List Int) (hv : v ≠ [])
    (h : ∀ x ∈ v, ((toString x).data).count ',' = 0) :
    numCommas (vector_literal v) + 1 = v.length := by
  have hlen : 0 < v.length := List.length_pos.mpr hv
  unfold numCommas vector_literal pyListRepr
  simp only [sdata_append, mk_data, List.count_append, List.count_cons]
  have hes : ∀ e ∈ v.map (fun x => (toString x).data), e.count ',' = 0 := by
    intro e he
    rcases List.mem_map.mp he with ⟨x, hx, rfl⟩
    exact h x hx
  have hne : v.map (fun x => (toString x).data) ≠ [] := by
    cases v <;> simp_all
  have := count_pyListChars _ hes hne
  simp only [List.length_map] at this
  have c1 : ("ARRAY").data.count ',' = 0 := by decide
  have c2 : ("::vector").data.count ',' = 0 := by decide
  simp only [c1, c2, this]
  simp
  omega

/-! ### Helper lemmas: executor and handler -/

theorem exec_conn_err (store : Store) (q : String) (emb : Option (List Int))
    (k : Nat) (e : String) (hc : store.connect = Except.error e) :
    execute_sql_query store q emb k
      = { result := none, calls := [], conns_opened := 0, conns_closed := 0 } := by
  simp [execute_sql_query, hc]

theorem exec_calls (store : Store) (q : String) (emb : Option (List Int))
    (k : Nat) (hc : store.connect = Except.ok ()) :
    (execute_sql_query store q emb k).calls = [executed_sql q emb k] := by
  simp only [execute_sql_query, hc]
  rcases store.run (executed_sql q emb k) with e | rows <;> rfl

theorem exec_result_ok (store : Store) (q : String) (emb : Option (List Int))
    (k : Nat) (rows : List Row) (hc : store.connect = Except.ok ())
    (hr : store.run (executed_sql q emb k) = Except.ok rows) :
    (execute_sql_query store q emb k).result = some rows := by
  simp [execute_sql_query, hc, hr]

theorem exec_result_err (store : Store) (q : String) (emb : Option (List Int))
    (k : Nat) (e : String) (hc : store.connect = Except.ok ())
    (hr : store.run (executed_sql q emb k) = Except.error e) :
    (execute_sql_query store q emb k).result = none := by
  simp [execute_sql_query, hc, hr]

theorem exec_conns_balanced (store : Store) (q : String)
    (emb : Option (List Int)) (k : Nat) :
    (execute_sql_query store q emb k).conns_closed
      = (execute_sql_query store q emb k).conns_opened := by
  rcases hc : store.connect with e | u
  · simp [execute_sql_query, hc]
  · simp only [execute_sql_query, hc]
    rcases store.run (executed_sql q emb k) with e | rows <;> rfl

/-- The outcome rendered when query generation fails. -/
def genFailOutcome : SearchOutcome :=
  { displayed_sql := none, ui := UiOutcome.generationFailed
    calls := [], conns_opened := 0, conns_closed := 0 }

theorem handler_emb_fail (c : Collaborators) (store : Store) (input : String)
    (hsim : use_vector_search input = true) (hemb : c.embed input = none) :
    search_handler c store input = genFailOutcome := by
  simp [search_handler, generate_sql_query, hsim, hemb, genFailOutcome]

theorem handler_llm_fail (c : Collaborators) (store : Store) (input : String)
    (hstruct : use_vector_search input = false)
    (hllm : c.llm (structured_prompt input) = none) :
    search_handler c store input = genFailOutcome := by
  simp [search_handler, generate_sql_query, hstruct, hllm, genFailOutcome]

theorem handler_llm_empty (c : Collaborators) (store : Store) (input t : String)
    (hstruct : use_vector_search input = false)
    (hllm : c.llm (structured_prompt input) = some t)
    (hemp : (strim t).data.isEmpty = true) :
    search_handler c store input = genFailOutcome := by
  simp [search_handler, generate_sql_query, hstruct, hllm, hemp, genFailOutcome]

theorem similarity_template_not_empty :
    similarity_template.data.isEmpty = false := by decide

theorem strip_fences_similarity :
    strip_fences similarity_template = similarity_template := by decide

theorem handler_similarity (c : Collaborators) (store : Store) (input : String)
    (v : List Int) (hsim : use_vector_search input = true)
    (hemb : c.embed input = some v) :
    search_handler c store input = run_search store similarity_template (some v) := by
  simp [search_handler, generate_sql_query, hsim, hemb,
    similarity_template_not_empty, strip_fences_similarity]

theorem handler_structured (c : Collaborators) (store : Store) (input t : String)
    (hstruct : use_vector_search input = false)
    (hllm : c.llm (structured_prompt input) = some t)
    (hne : (strim t).data.isEmpty = false) :
    search_handler c store input = run_search store (strip_fences (strim t)) none := by
  simp [search_handler, generate_sql_query, hstruct, hllm, hne]

theorem run_search_invalid (store : Store) (q : String) (emb : Option (List Int))
    (h : containsSub q "SELECT" = false) :
    run_search store q emb
      = { displayed_sql := some q, ui := UiOutcome.invalidQuery
          calls := [], conns_opened := 0, conns_closed := 0 } := by
  simp [run_search, h]

theorem run_search_displayed (store : Store) (q : String) (emb : Option (List Int))
    (h : containsSub q "SELECT" = true) :
    (run_search store q emb).displayed_sql = some q := by
  simp [run_search, h]

theorem run_search_calls (store : Store) (q : String) (emb : Option (List Int))
    (h : containsSub q "SELECT" = true) (hc : store.connect = Except.ok ()) :
    (run_search store q emb).calls = [executed_sql q emb 1] := by
  simp [run_search, h, exec_calls store q emb 1 hc]

theorem run_search_ui_empty (store : Store) (q : String) (emb : Option (List Int))
    (h : containsSub q "SELECT" = true) (hc : store.connect = Except.ok ())
    (hr : store.run (executed_sql q emb 1) = Except.ok []) :
    (run_search store q emb).ui = UiOutcome.noResultsOrFailed := by
  simp [run_search, h, exec_result_ok store q emb 1 [] hc hr]

theorem run_search_ui_err (store : Store) (q : String) (emb : Option (List Int))
    (e : String) (h : containsSub q "SELECT" = true)
    (hc : store.connect = Except.ok ())
    (hr : store.run (executed_sql q emb 1) = Except.error e) :
    (run_search store q emb).ui = UiOutcome.noResultsOrFailed := by
  simp [run_search, h, exec_result_err store q emb 1 e hc hr]

/-! ### Claims -/

/-- Claim C2: for every user query classified as a similarity query, if the
Embedding Client returns no vector, the pipeline reaches a failure result
with zero store calls: the Query Executor is never invoked and no
connection is opened. -/
theorem C2_embedding_failure_short_circuits (c : Collaborators) (store : Store)
    (input : String) (hsim : use_vector_search input = true)
    (hemb : c.embed input = none) :
    (search_handler c store input).calls = []
    ∧ (search_handler c store input).conns_opened = 0
    ∧ (search_handler c store input).ui = UiOutcome.generationFailed := by
  rw [handler_emb_fail c store input hsim hemb]
  exact ⟨rfl, rfl, rfl⟩

/-- Witness for C2: a concrete similarity query with a failing embedder
makes zero store calls. -/
theorem C2_witness :
    use_vector_search "find similar products to chair" = true
    ∧ (search_handler ⟨fun _ => none, fun _ => some "SELECT 1;"⟩
        ⟨Except.ok (), fun _ => Except.ok []⟩
        "find similar products to chair").calls = []
    ∧ (search_handler ⟨fun _ => none, fun _ => some "SELECT 1;"⟩
        ⟨Except.ok (), fun _ => Except.ok []⟩
        "find similar products to chair").conns_opened = 0 := by
  have h := C2_embedding_failure_short_circuits
    ⟨fun _ => none, fun _ => some "SELECT 1;"⟩
    ⟨Except.ok (), fun _ => Except.ok []⟩
    "find similar products to chair" (by decide) rfl
  exact ⟨by decide, h.1, h.2.1⟩

/-- Claim C3: intent classification returns `SimilarityQuery` exactly when
the lowercased text contains one of the five similarity keywords; the empty
text is classified `StructuredQuery`. -/
theorem C3_classify_iff (input : String) :
    (classify input = QueryIntent.SimilarityQuery ↔
      (containsSub (slower input) "similar" = true
        ∨ containsSub (slower input) "like" = true
        ∨ containsSub (slower input) "related" = true
        ∨ containsSub (slower input) "matching" = true
        ∨ containsSub (slower input) "relevant" = true))
    ∧ classify "" = QueryIntent.StructuredQuery := by
  constructor
  · have hexp : use_vector_search input
        = (containsSub (slower input) "similar"
          || (containsSub (slower input) "like"
          || (containsSub (slower input) "related"
          || (containsSub (slower input) "matching"
          || containsSub (slower input) "relevant")))) := by
      simp [use_vector_search, similarity_keywords]
    have hcl : classify input = QueryIntent.SimilarityQuery ↔
        use_vector_search input = true := by
      cases h : use_vector_search input <;> simp [classify, h]
    have hmain : use_vector_search input = true ↔
        (containsSub (slower input) "similar" = true
          ∨ containsSub (slower input) "like" = true
          ∨ containsSub (slower input) "related" = true
          ∨ containsSub (slower input) "matching" = true
          ∨ containsSub (slower input) "relevant" = true) := by
      rw [hexp]
      simp [Bool.or_eq_true]
    exact hcl.trans hmain
  · decide

/-- Claim C8: on the structured path the collaborator text is trimmed and
its code-fence markers removed before anything else: the displayed query,
the input of the `SELECT` gate and the SQL handed to the store are all
`strip_fences (strim t)`. -/
theorem C8_fences_stripped_before_gate (c : Collaborators) (store : Store)
    (input t : String) (hstruct : use_vector_search input = false)
    (hllm : c.llm (structured_prompt input) = some t)
    (hne : (strim t).data.isEmpty = false) :
    (search_handler c store input).displayed_sql = some (strip_fences (strim t))
    ∧ (containsSub (strip_fences (strim t)) "SELECT" = false →
        (search_handler c store input).ui = UiOutcome.invalidQuery
        ∧ (search_handler c store input).calls = [])
    ∧ (containsSub (strip_fences (strim t)) "SELECT" = true →
        store.connect = Except.ok () →
        (search_handler c store input).calls = [strip_fences (strim t)]) := by
  rw [handler_structured c store input t hstruct hllm hne]
  refine ⟨?_, ?_, ?_⟩
  · by_cases hg : containsSub (strip_fences (strim t)) "SELECT" = true
    · exact run_search_displayed store _ none hg
    · rw [run_search_invalid store _ none (by simpa using hg)]
  · intro hg
    rw [run_search_invalid store _ none hg]
    exact ⟨rfl, rfl⟩
  · intro hg hc
    rw [run_search_calls store _ none hg hc]
    rfl

/-- Witness for C8: the fenced collaborator output
is stripped to the bare statement, which is exactly what gets executed. -/
theorem C8_witness :
    strip_fences (strim "```sql\nSELECT * FROM employees;\n```")
      = "SELECT * FROM employees;"
    ∧ (search_handler
        ⟨fun _ => none, fun _ => some "```sql\nSELECT * FROM employees;\n```"⟩
        ⟨Except.ok (), fun _ => Except.ok []⟩ "list all employees").calls
      = ["SELECT * FROM employees;"] := by
  have h := C8_fences_stripped_before_gate
    ⟨fun _ => none, fun _ => some "```sql\nSELECT * FROM employees;\n```"⟩
    ⟨Except.ok (), fun _ => Except.ok []⟩ "list all employees"
    "```sql\nSELECT * FROM employees;\n```" (by decide) rfl (by decide)
  refine ⟨by decide, ?_⟩
  rw [h.2.2 (by decide) rfl]
  decide

/-- The write trace of the ingestion fold: one `(id, embedding)` pair per
fetched row, appended in order. -/
theorem ingest_trace (embed : String → List Int) :
    ∀ (rows : List (Nat × String)) (acc : List Product × List (Nat × List Int)),
      (rows.foldl (ingest_step embed) acc).2
        = acc.2 ++ rows.map fun p => (p.1, embed p.2) := by
  intro rows
  induction rows with
  | nil => intro acc; simp
  | cons r rs ih =>
    intro acc
    simp only [List.foldl_cons, List.map_cons]
    rw [ih]
    simp [ingest_step, List.append_assoc]

/-- Claim C9: the ingestion job reads every `(id, name)` pair and performs
exactly one embedding write per source row, keyed by that row's primary
key, with the value computed from that row's name. -/
theorem C9_one_write_per_row (embed : String → List Int) (table : List Product) :
    (ingestion_run embed table).2 = table.map (fun r => (r.id, embed r.name))
    ∧ (ingestion_run embed table).2.length = table.length
    ∧ (ingestion_run embed table).2.map Prod.fst = table.map Product.id := by
  have h := ingest_trace embed (table.map fun r => (r.id, r.name)) (table, [])
  unfold ingestion_run
  rw [h]
  refine ⟨?_, ?_, ?_⟩ <;> simp [List.map_map, Function.comp]

/-- Claim C10: an empty embedding vector is treated exactly like an absent
one by the executor (Python truthiness): no substitution at all is
performed, the template — placeholder included — is executed verbatim. -/
theorem C10_empty_vector_verbatim :
    ∀ (store : Store) (q : String) (k : Nat),
      execute_sql_query store q (some ([] : List Int)) k
        = execute_sql_query store q none k
      ∧ executed_sql q (some ([] : List Int)) k = q
      ∧ executed_sql similarity_template (some ([] : List Int)) k
        = similarity_template := by
  intro store q k
  exact ⟨rfl, rfl, rfl⟩

/-- Counterexample to Claim C1: the code's gate is `"SELECT" in sql_query`
(case-sensitive containment), not "begins with a read-only keyword".  The
collaborator text `"DROP TABLE products; SELECT 1"` does not begin with a
read-only statement keyword, yet it passes the gate and is handed to the
store. -/
theorem C1_counterexample :
    spec_begins_with_read_only "DROP TABLE products; SELECT 1" = false
    ∧ (search_handler
        ⟨fun _ => none, fun _ => some "DROP TABLE products; SELECT 1"⟩
        ⟨Except.ok (), fun _ => Except.ok []⟩ "list all products").calls
      = ["DROP TABLE products; SELECT 1"]
    ∧ (search_handler
        ⟨fun _ => none, fun _ => some "DROP TABLE products; SELECT 1"⟩
        ⟨Except.ok (), fun _ => Except.ok []⟩ "list all products").ui
      ≠ UiOutcome.invalidQuery := by
  decide

/-- Claim C1 as amended: the structured-path text is rejected (InvalidQuery,
or the generation-failure message when it trims to nothing) with the
executor never invoked whenever the stripped text does not CONTAIN the
case-sensitive substring `"SELECT"`; in particular `"DROP TABLE products;"`
never reaches the Query Executor.  Texts that merely contain `"SELECT"`
pass the gate even when they do not begin with a read-only keyword. -/
theorem C1_amended_gate_is_select_containment (c : Collaborators)
    (store : Store) (input t : String)
    (hstruct : use_vector_search input = false)
    (hllm : c.llm (structured_prompt input) = some t)
    (hgate : containsSub (strip_fences (strim t)) "SELECT" = false) :
    (search_handler c store input).calls = []
    ∧ ((search_handler c store input).ui = UiOutcome.invalidQuery
        ∨ (search_handler c store input).ui = UiOutcome.generationFailed) := by
  by_cases hemp : (strim t).data.isEmpty = true
  · rw [handler_llm_empty c store input t hstruct hllm hemp]
    exact ⟨rfl, Or.inr rfl⟩
  · have hne : (strim t).data.isEmpty = false := by simpa using hemp
    rw [handler_structured c store input t hstruct hllm hne]
    rw [run_search_invalid store _ none hgate]
    exact ⟨rfl, Or.inl rfl⟩

/-- Witness for amended C1: `"DROP TABLE products;"` is rejected and the
store is never called. -/
theorem C1_witness :
    containsSub (strip_fences (strim "DROP TABLE products;")) "SELECT" = false
    ∧ (search_handler ⟨fun _ => none, fun _ => some "DROP TABLE products;"⟩
        ⟨Except.ok (), fun _ => Except.ok []⟩ "list all products").calls = [] := by
  have h := C1_amended_gate_is_select_containment
    ⟨fun _ => none, fun _ => some "DROP TABLE products;"⟩
    ⟨Except.ok (), fun _ => Except.ok []⟩ "list all products"
    "DROP TABLE products;" (by decide) rfl (by decide)
  exact ⟨by decide, h.1⟩

/-- Claim C4 as amended: for a similarity query whose embedding succeeds
with a 768-component vector, the pipeline issues exactly one store call
whose vector literal has 768 components, but its literal result-count is 1
— `execute_sql_query`'s own default `top_k`, which the handler never
overrides — not 5; the count would be 5 only if the caller passed
`top_k = 5`. -/
theorem C4_amended_default_limit_is_one (c : Collaborators) (store : Store)
    (input : String) (v : List Int)
    (hsim : use_vector_search input = true)
    (hemb : c.embed input = some v)
    (hlen : v.length = 768)
    (h5 : noOccStartsIn ("LIMIT 5").data (vector_literal v).data = true)
    (hcomma : ∀ x ∈ v, ((toString x).data).count ',' = 0)
    (hconn : store.connect = Except.ok ()) :
    (search_handler c store input).calls
      = [similarity_sql_head ++ vector_literal v ++ " LIMIT 1;"]
    ∧ numCommas (vector_literal v) + 1 = 768
    ∧ executed_sql similarity_template (some v) 5
      = similarity_sql_head ++ vector_literal v ++ " LIMIT 5;" := by
  have hv : v ≠ [] := by
    intro h
    rw [h] at hlen
    simp at hlen
  have hgate : containsSub similarity_template "SELECT" = true := by decide
  refine ⟨?_, ?_, ?_⟩
  · rw [handler_similarity c store input v hsim hemb]
    rw [run_search_calls store similarity_template (some v) hgate hconn]
    rw [executed_similarity v 1 hv h5]
    have hfin : (similarity_sql_head ++ vector_literal v ++ " LIMIT "
          ++ toString (1 : Nat) ++ ";")
        = similarity_sql_head ++ vector_literal v ++ " LIMIT 1;" := by
      apply strEq
      simp only [sdata_append, List.append_assoc]
      congr 2
    rw [hfin]
  · rw [numCommas_vector_literal v hv hcomma, hlen]
  · rw [executed_similarity v 5 hv h5]
    apply strEq
    simp only [sdata_append, List.append_assoc]
    congr 2

/-- Counterexample to Claim C4: running the whole pipeline on a similarity
query with a successful 768-component embedding executes SQL whose literal
result-count is 1, not 5 (`"LIMIT 5"` of the displayed template is
rewritten to `"LIMIT 1"` before execution). -/
theorem C4_counterexample :
    (search_handler
        ⟨fun _ => some (List.replicate 768 (0 : Int)), fun _ => none⟩
        ⟨Except.ok (), fun _ => Except.ok []⟩
        "find products similar to chair").calls
      = [similarity_sql_head ++ vector_literal (List.replicate 768 (0 : Int))
          ++ " LIMIT 1;"]
    ∧ containsSub (similarity_sql_head
          ++ vector_literal (List.replicate 768 (0 : Int)) ++ " LIMIT 1;")
        "LIMIT 5" = false
    ∧ containsSub (similarity_sql_head
          ++ vector_literal (List.replicate 768 (0 : Int)) ++ " LIMIT 1;")
        "LIMIT 1" = true
    ∧ (List.replicate 768 (0 : Int)).length = 768 := by
  refine ⟨?_, by decide, by decide, by decide⟩
  rw [handler_similarity _ _ _ (List.replicate 768 (0 : Int)) (by decide) rfl]
  rw [run_search_calls _ _ _ (by decide) rfl]
  rw [executed_similarity (List.replicate 768 (0 : Int)) 1 (by decide) (by decide)]
  have hfin : (similarity_sql_head ++ vector_literal (List.replicate 768 (0 : Int))
        ++ " LIMIT " ++ toString (1 : Nat) ++ ";")
      = similarity_sql_head ++ vector_literal (List.replicate 768 (0 : Int))
        ++ " LIMIT 1;" := by
    apply strEq
    simp only [sdata_append, List.append_assoc]
    congr 2
  rw [hfin]

/-- Witness for amended C4: at a concrete 768-component vector the literal
has 768 components and `top_k = 5` gives literal result-count 5. -/
theorem C4_witness :
    (List.replicate 768 (0 : Int)).length = 768
    ∧ numCommas (vector_literal (List.replicate 768 (0 : Int))) + 1 = 768
    ∧ executed_sql similarity_template (some (List.replicate 768 (0 : Int))) 5
      = similarity_sql_head ++ vector_literal (List.replicate 768 (0 : Int))
        ++ " LIMIT 5;" := by
  have h := C4_amended_default_limit_is_one
    ⟨fun _ => some (List.replicate 768 (0 : Int)), fun _ => none⟩
    ⟨Except.ok (), fun _ => Except.ok []⟩
    "find products similar to chair" (List.replicate 768 (0 : Int))
    (by decide) rfl (by decide) (by decide)
    (by intro x hx; rw [List.eq_of_mem_replicate hx]; decide) rfl
  exact ⟨by decide, h.2.1, h.2.2⟩

/-- Counterexample to Claim C5: an empty result set and an execution
failure are distinguishable in the executor's return value (`some []`
versus `none`) but produce the IDENTICAL user-visible outcome — the single
message "No results found or query execution failed." covers both. -/
theorem C5_counterexample :
    (search_handler ⟨fun _ => none, fun _ => some "SELECT * FROM employees;"⟩
        ⟨Except.ok (), fun _ => Except.ok []⟩ "list all employees").ui
      = (search_handler ⟨fun _ => none, fun _ => some "SELECT * FROM employees;"⟩
        ⟨Except.ok (), fun _ => Except.error "syntax error"⟩ "list all employees").ui
    ∧ (execute_sql_query ⟨Except.ok (), fun _ => Except.ok []⟩
        "SELECT * FROM employees;" none 1).result = some []
    ∧ (execute_sql_query ⟨Except.ok (), fun _ => Except.error "syntax error"⟩
        "SELECT * FROM employees;" none 1).result = none := by
  decide

/-- Claim C5 as amended: an empty row set is a successful result (`some []`,
distinct from the failure value `none`) in the executor's return value, but
the user-visible outcome does NOT distinguish the two: both the empty
success and the execution failure render `noResultsOrFailed`. -/
theorem C5_amended_ui_conflates_empty_and_failure (c : Collaborators)
    (st1 st2 : Store) (input t : String)
    (hstruct : use_vector_search input = false)
    (hllm : c.llm (structured_prompt input) = some t)
    (hne : (strim t).data.isEmpty = false)
    (hgate : containsSub (strip_fences (strim t)) "SELECT" = true)
    (h1c : st1.connect = Except.ok ())
    (h1r : st1.run (strip_fences (strim t)) = Except.ok [])
    (h2c : st2.connect = Except.ok ()) (e : String)
    (h2r : st2.run (strip_fences (strim t)) = Except.error e) :
    (execute_sql_query st1 (strip_fences (strim t)) none 1).result = some []
    ∧ (execute_sql_query st2 (strip_fences (strim t)) none 1).result = none
    ∧ some ([] : List Row) ≠ (none : Option (List Row))
    ∧ (search_handler c st1 input).ui = UiOutcome.noResultsOrFailed
    ∧ (search_handler c st2 input).ui = UiOutcome.noResultsOrFailed := by
  refine ⟨?_, ?_, by simp, ?_, ?_⟩
  · exact exec_result_ok st1 _ none 1 [] h1c h1r
  · exact exec_result_err st2 _ none 1 e h2c h2r
  · rw [handler_structured c st1 input t hstruct hllm hne]
    exact run_search_ui_empty st1 _ none hgate h1c h1r
  · rw [handler_structured c st2 input t hstruct hllm hne]
    exact run_search_ui_err st2 _ none e hgate h2c h2r

/-- Witness for amended C5 at a concrete query, an empty-result store and a
failing store. -/
theorem C5_witness :
    (execute_sql_query ⟨Except.ok (), fun _ => Except.ok []⟩
        (strip_fences (strim "SELECT * FROM employees;")) none 1).result = some []
    ∧ (search_handler ⟨fun _ => none, fun _ => some "SELECT * FROM employees;"⟩
        ⟨Except.ok (), fun _ => Except.error "relation does not exist"⟩
        "list all employees").ui = UiOutcome.noResultsOrFailed := by
  have h := C5_amended_ui_conflates_empty_and_failure
    ⟨fun _ => none, fun _ => some "SELECT * FROM employees;"⟩
    ⟨Except.ok (), fun _ => Except.ok []⟩
    ⟨Except.ok (), fun _ => Except.error "relation does not exist"⟩
    "list all employees" "SELECT * FROM employees;"
    (by decide) rfl (by decide) (by decide) rfl rfl rfl
    "relation does not exist" rfl
  exact ⟨h.1, h.2.2.2.2⟩

/-- Counterexample to Claim C6: the executor's failure value carries no
cause — two stores failing with different causes produce identical
outcomes, so the return value is the bare marker `None`, not a typed
failure carrying the cause (the cause is only printed). -/
theorem C6_counterexample :
    execute_sql_query ⟨Except.ok (), fun _ => Except.error "timeout expired"⟩
        "SELECT 1;" none 1
      = execute_sql_query
        ⟨Except.ok (), fun _ => Except.error "syntax error at or near"⟩
        "SELECT 1;" none 1
    ∧ (execute_sql_query ⟨Except.ok (), fun _ => Except.error "timeout expired"⟩
        "SELECT 1;" none 1).result = none := by
  decide

/-- Claim C6 as amended: on any execution error the executor returns the
failure marker `None` (without the cause, which is only logged) instead of
raising past its boundary, and on every exit path exactly the connections
that were opened are closed (a failed `connect` opens none). -/
theorem C6_amended_failure_marker_and_close (store : Store) (q : String)
    (emb : Option (List Int)) (k : Nat) :
    ((execute_sql_query store q emb k).conns_closed
      = (execute_sql_query store q emb k).conns_opened)
    ∧ (∀ e, store.connect = Except.error e →
        execute_sql_query store q emb k
          = { result := none, calls := [], conns_opened := 0, conns_closed := 0 })
    ∧ (∀ e, store.connect = Except.ok () →
        store.run (executed_sql q emb k) = Except.error e →
        (execute_sql_query store q emb k).result = none
        ∧ (execute_sql_query store q emb k).conns_closed = 1) := by
  refine ⟨exec_conns_balanced store q emb k, ?_, ?_⟩
  · intro e hc
    exact exec_conn_err store q emb k e hc
  · intro e hc hr
    refine ⟨exec_result_err store q emb k e hc hr, ?_⟩
    simp [execute_sql_query, hc, hr]

/-- Witness for amended C6 at a concrete store whose execution fails. -/
theorem C6_witness :
    (execute_sql_query ⟨Except.ok (), fun _ => Except.error "timeout expired"⟩
        "SELECT 1;" none 1).result = none
    ∧ (execute_sql_query ⟨Except.ok (), fun _ => Except.error "timeout expired"⟩
        "SELECT 1;" none 1).conns_closed
      = (execute_sql_query ⟨Except.ok (), fun _ => Except.error "timeout expired"⟩
        "SELECT 1;" none 1).conns_opened := by
  have h := C6_amended_failure_marker_and_close
    ⟨Except.ok (), fun _ => Except.error "timeout expired"⟩ "SELECT 1;" none 1
  exact ⟨(h.2.2 "timeout expired" rfl rfl).1, h.1⟩

/-- Counterexample to Claim C7: a present-but-empty vector (`some []`) is
NOT substituted — Python truthiness treats it as absent, the template is
executed verbatim and its `%s` placeholder survives into the store call. -/
theorem C7_counterexample :
    (execute_sql_query ⟨Except.ok (), fun _ => Except.ok []⟩
        similarity_template (some ([] : List Int)) 3).calls
      = [similarity_template]
    ∧ containsSub similarity_template "%s" = true := by
  decide

/-- Claim C7 as amended: a present NON-EMPTY vector is rendered in the
store's vector-literal syntax and substituted for the placeholder with the
row limit substituted for the default `LIMIT 5`; an absent — or empty —
vector leaves the template verbatim with no client-side substitution; the
store receives exactly the substituted text. -/
theorem C7_amended_substitution (store : Store) (q : String) (v : List Int)
    (k : Nat) (hv : v ≠ [])
    (h5 : noOccStartsIn ("LIMIT 5").data (vector_literal v).data = true) :
    executed_sql q (some v) k
      = sreplace (sreplace q "%s" (vector_literal v)) "LIMIT 5"
          ("LIMIT " ++ toString k)
    ∧ executed_sql q none k = q
    ∧ executed_sql q (some []) k = q
    ∧ executed_sql similarity_template (some v) k
      = similarity_sql_head ++ vector_literal v ++ " LIMIT " ++ toString k ++ ";"
    ∧ (store.connect = Except.ok () →
        (execute_sql_query store q (some v) k).calls
          = [executed_sql q (some v) k]) := by
  have hvE : v.isEmpty = false := by cases v <;> simp_all
  refine ⟨?_, rfl, rfl, executed_similarity v k hv h5,
    fun hc => exec_calls store q (some v) k hc⟩
  simp [executed_sql, hvE]

/-- Witness for amended C7 at a concrete vector and template. -/
theorem C7_witness :
    executed_sql similarity_template (some [1, 2, 3]) 4
      = similarity_sql_head ++ vector_literal [1, 2, 3] ++ " LIMIT "
        ++ toString 4 ++ ";"
    ∧ executed_sql similarity_template none 4 = similarity_template
    ∧ (execute_sql_query ⟨Except.ok (), fun _ => Except.ok []⟩
        similarity_template (some [1, 2, 3]) 4).calls
      = [executed_sql similarity_template (some [1, 2, 3]) 4] := by
  have h := C7_amended_substitution ⟨Except.ok (), fun _ => Except.ok []⟩
    similarity_template [1, 2, 3] 4 (by decide) (by decide)
  exact ⟨h.2.2.2.1, h.2.1, h.2.2.2.2 rfl⟩
